import Mathlib

/-!
Verification development for the Power BI Embedded AI backend
(`backend/main.py`, `backend/dax_agent.py`, `backend/agent_service.py`,
`backend/generate_pbi_token.py`, `backend/ai/tools/execute_dax_query_tool.py`,
`backend/ai/agents/visual_creator_agent.py`, `backend/models/visual_models.py`).

The Python code is shallowly embedded: JSON values become an inductive `Json`
type, Python exceptions become an explicit `PyExn` error type threaded through
`Except`, the process-wide mutable conversation history and token cache become
explicit state arguments and results, and every remote collaborator (the agent
runtime, the Power BI REST API, the credential provider) is an explicit input
describing the response the collaborator would have produced.  Side effects
that matter to the properties (credential acquisition, outbound HTTP POSTs)
are recorded in an explicit effect trace.
-/

/-- A JSON value, as produced by `response.json()` / consumed by `json.dumps`.
Python `dict`s are association lists (keys unique in any real parse result);
Python `None` is `null`. -/
inductive Json where
  | null : Json
  | bool (b : Bool) : Json
  | num (n : Int) : Json
  | str (s : String) : Json
  | arr (xs : List Json) : Json
  | obj (fields : List (String × Json)) : Json
deriving Repr, Inhabited

/-- Python truthiness (`if x:`) on JSON-shaped values: `None`, `False`, `0`,
`""`, `[]`, and the empty dict are falsy, everything else truthy. -/
def truthy : Json → Bool
  | .null => false
  | .bool b => b
  | .num n => n != 0
  | .str s => s != ""
  | .arr xs => !xs.isEmpty
  | .obj fs => !fs.isEmpty

/-- Python truthiness of an `Optional[str]` (e.g. `os.getenv` results):
`None` and the empty string are falsy. -/
def strTruthy : Option String → Bool
  | none => false
  | some s => s != ""

/-- The Python exceptions that the embedded code can raise.  `httpExc` is
FastAPI/Starlette `HTTPException` (whose `str()` is `"{status_code}: {detail}"`);
the attribute/type/key/index errors arise from `.get`/`[0]` on values of the
wrong runtime type. -/
inductive PyExn where
  | httpExc (status_code : Nat) (detail : String)
  | runtimeError (msg : String)
  | valueError (msg : String)
  | attributeError
  | typeError
  | keyError
  | indexError
deriving Repr, DecidableEq

/-- Python `str(e)` on an exception, as used by `f"...{str(e)}"` in
`main.py`.  Starlette `HTTPException.__str__` is `f"{status_code}: {detail}"`;
for the other exception kinds the claims only ever use `RuntimeError` /
`ValueError`, whose `str` is their message. -/
def pyStrExn : PyExn → String
  | .httpExc status_code detail => toString status_code ++ ": " ++ detail
  | .runtimeError msg => msg
  | .valueError msg => msg
  | .attributeError => "AttributeError"
  | .typeError => "TypeError"
  | .keyError => "KeyError"
  | .indexError => "IndexError"

/-- Python `d.get(k, default)` / `d[k]`-after-`get` on a JSON value: succeeds only on
dicts (first binding wins, as in a parsed-JSON dict); on any other runtime
type Python raises `AttributeError` (`'X' object has no attribute 'get'`). -/
def pyGet (j : Json) (k : String) (default : Json) : Except PyExn Json :=
  match j with
  | .obj fs => .ok ((fs.lookup k).getD default)
  | _ => .error .attributeError

/-- Python `x[0]` on a JSON value: first element of a non-empty list, first character
of a non-empty string; `KeyError` on a dict without integer keys, `IndexError`
on an empty sequence, `TypeError` on scalars. -/
def pyIndexZero : Json → Except PyExn Json
  | .arr (x :: _) => .ok x
  | .arr [] => .error .indexError
  | .str s => if s == "" then .error .indexError else .ok (.str (s.take 1))
  | .obj _ => .error .keyError
  | .null | .bool _ | .num _ => .error .typeError

mutual

/-- Python `json.dumps` of a JSON value (whitespace/indentation of the Python
`indent=2` pretty-printer abstracted away; no claim inspects this output). -/
def json_dumps : Json → String
  | .null => "null"
  | .bool true => "true"
  | .bool false => "false"
  | .num n => toString n
  | .str s => "\x22" ++ s ++ "\x22"
  | .arr xs => "[" ++ json_dumpsArr xs ++ "]"
  | .obj fs => "\x7b" ++ json_dumpsObj fs ++ "\x7d"

/-- Comma-separated serialization of a JSON array's elements. -/
def json_dumpsArr : List Json → String
  | [] => ""
  | [x] => json_dumps x
  | x :: y :: xs => json_dumps x ++ ", " ++ json_dumpsArr (y :: xs)

/-- Comma-separated serialization of a JSON object's bindings. -/
def json_dumpsObj : List (String × Json) → String
  | [] => ""
  | [(k, v)] => "\x22" ++ k ++ "\x22: " ++ json_dumps v
  | (k, v) :: kv :: fs => "\x22" ++ k ++ "\x22: " ++ json_dumps v ++ ", " ++ json_dumpsObj (kv :: fs)

end

/-- Python `str(x)` on a JSON value, as interpolated by `f"Error: {error_msg}"`
in the tool code: strings verbatim, `True`/`False`/`None` spelled the Python
way; container rendering abstracted by the JSON serializer (the claims only
exercise the scalar cases). -/
def pyStr : Json → String
  | .str s => s
  | .bool true => "True"
  | .bool false => "False"
  | .null => "None"
  | .num n => toString n
  | j => json_dumps j

/-- Model of `ChatMessage` of `backend/main.py` (also the shape of the dict entries of
the process-wide `conversation_history` list, which carry the same two keys). -/
structure ChatMessage where
  role : String
  content : String
deriving Repr, DecidableEq

/-- The process-wide `conversation_history` list of `backend/main.py`. -/
abbrev History := List ChatMessage

/-- Model of `ChatResponse` of `backend/main.py` (`role` defaults to `"assistant"`). -/
structure ChatResponse where
  message : String
  role : String := "assistant"
deriving Repr, DecidableEq

/-- The body of the `try:` block of `chat_with_agent` (`backend/main.py`,
POST `/api/chat`), with the mutable `conversation_history` threaded
explicitly and the awaited `dax_agent.generate_dax_query` call abstracted as
the function `generate_dax` (its raising modelled by `Except`).  Returns the
history as it stands when the block finishes or raises — appends performed
before a raise persist, exactly as for the Python global list. -/
def chat_try_body (conversation_history : History) (messages : List ChatMessage)
    (generate_dax : String → Except PyExn String) :
    History × Except PyExn ChatResponse :=
  match messages.getLast? with
  | none =>
      -- `user_message = request.messages[-1] if request.messages else None`;
      -- a missing message raises `HTTPException(400, "No message provided")`.
      (conversation_history, .error (.httpExc 400 "No message provided"))
  | some user_message =>
      let h := conversation_history ++ [⟨user_message.role, user_message.content⟩]
      match generate_dax user_message.content with
      | .error e => (h, .error e)
      | .ok response_content =>
          (h ++ [⟨"assistant", response_content⟩],
           .ok ⟨response_content, "assistant"⟩)

/-- Model of `chat_with_agent` of `backend/main.py`: the `try:` body wrapped in
`except Exception as e: raise HTTPException(500, f"Error processing chat: {str(e)}")`.
Note that this handler also catches the `HTTPException(400)` raised inside the
`try:` block, because FastAPI's `HTTPException` is an `Exception`. -/
def chat_with_agent (conversation_history : History) (messages : List ChatMessage)
    (generate_dax : String → Except PyExn String) :
    History × Except PyExn ChatResponse :=
  match chat_try_body conversation_history messages generate_dax with
  | (h, .ok r) => (h, .ok r)
  | (h, .error e) => (h, .error (.httpExc 500 ("Error processing chat: " ++ pyStrExn e)))

/-- GET `/api/chat/history` of `backend/main.py`: returns the conversation
history (the `messages` field of the response body). -/
def get_chat_history (conversation_history : History) : History :=
  conversation_history

/-- DELETE `/api/chat/history` of `backend/main.py`: `conversation_history.clear()`
followed by the confirmation body. -/
def clear_chat_history (_conversation_history : History) : History × String :=
  ([], "Chat history cleared")

/-- Model of `DaxAgent.__init__` of `backend/dax_agent.py`: raises `RuntimeError` when
`AZURE_AI_PROJECT_ENDPOINT` is unset (or empty, which is falsy in Python). -/
def daxAgent_init (azure_ai_project_endpoint : Option String) : Except PyExn Unit :=
  if strTruthy azure_ai_project_endpoint then .ok ()
  else .error (.runtimeError "AZURE_AI_PROJECT_ENDPOINT is required to initialize DAX agent.")

/-- Model of `DaxAgent.generate_dax_query` of `backend/dax_agent.py`: raises
`RuntimeError` when `start()` has not populated `self._client`; otherwise one
awaited agent-framework run, abstracted as `agentRun` (an opaque remote
collaborator that may itself raise). -/
def generate_dax_query (client : Option Unit)
    (agentRun : String → Except PyExn String) (user_query : String) :
    Except PyExn String :=
  match client with
  | none => .error (.runtimeError "DaxAgent not started. Call start() first.")
  | some _ => agentRun user_query

/-- Model of `AgentService._mock_response` of `backend/agent_service.py`: the
deterministic template echoing the user's message plus setup instructions. -/
def mock_response (user_message : String) : String :=
  "I understand you\x27re asking about: \x27" ++ user_message ++ "\x27. " ++
  "I\x27m an AI assistant ready to help you analyze your Power BI data using Microsoft Agent Framework. " ++
  "\n\n(Note: This is a mock response. To enable real AI responses using Microsoft Agent Framework:\n" ++
  "1. Install: pip install agent-framework agent-framework-azure-ai azure-identity\n" ++
  "2. For Azure AI Foundry (Recommended): Set AZURE_AI_PROJECT_ENDPOINT and AZURE_AI_MODEL_DEPLOYMENT_NAME in .env\n" ++
  "3. For Azure OpenAI: Set AZURE_OPENAI_ENDPOINT and AZURE_OPENAI_DEPLOYMENT_NAME in .env\n" ++
  "4. For OpenAI: Set OPENAI_API_KEY in .env\n" ++
  "5. Run \x27az login\x27 to authenticate with Azure CLI\n" ++
  "6. Optionally set OPENAI_MODEL (default: gpt-4o))"

/-- Model of `AgentService.chat` of `backend/agent_service.py`: when no agent was
initialized, the mock response; otherwise prefix the optional context to the
latest user message, run the agent (`agentRun`), and fall back to the mock
response (on the context-prefixed message, as in the source) if the run
raises.  This service is importable but is not what the `/api/chat` handler
of `backend/main.py` calls. -/
def agent_service_chat (agent : Option Unit)
    (agentRun : String → Except PyExn String)
    (messages : List ChatMessage) (context : Option String) : String :=
  let user_message := match messages.getLast? with
    | some m => m.content
    | none => ""
  match agent with
  | none => mock_response user_message
  | some _ =>
      let user_message :=
        if strTruthy context then
          "Power BI Context: " ++ context.getD "" ++ "\n\nUser Question: " ++ user_message
        else user_message
      match agentRun user_message with
      | .ok t => t
      | .error _ => mock_response user_message

/-- The environment-derived configuration consumed by the Query Executor tool
(`backend/ai/ai_config.py` / module globals of `backend/ai/dax_agent.py`):
`POWERBI_WORKSPACE_ID` and `POWERBI_DATASET_ID`, unset modelled as `none`. -/
structure ToolConfig where
  powerbi_workspace_id : Option String
  powerbi_dataset_id : Option String
deriving Repr, DecidableEq

/-- The observable side effects of one Query Executor call: acquiring a
credential token and POSTing to the Execute Queries endpoint. -/
inductive Effect where
  | credentialAcquired
  | httpPost (url : String)
deriving Repr, DecidableEq

/-- The HTTP response the Execute Queries endpoint would return: status code,
raw text (used for non-200 error reporting) and parsed JSON body. -/
structure QueryHttpResponse where
  status : Nat
  text : String
  body : Json
deriving Repr

/-- The 200-status unwrap sequence of `execute_dax_query_tool`
(`backend/ai/tools/execute_dax_query_tool.py`, after `result = await
response.json()`): top-level `error` check, `results` / `results[0].error` /
`tables` / `rows` unwrapping with the three descriptive "No X returned"
strings, ending in `json.dumps(rows, indent=2)`.  Each `.get` / `[0]` is the
Python operation, which raises on values of the wrong runtime type. -/
def unwrap_query_response (result : Json) : Except PyExn String :=
  match pyGet result "error" .null with
  | .error e => .error e
  | .ok err =>
    if truthy err then
      match pyGet err "message" (.str "Unknown error") with
      | .error e => .error e
      | .ok error_msg => .ok ("Error: " ++ pyStr error_msg)
    else
      match pyGet result "results" (.arr []) with
      | .error e => .error e
      | .ok results =>
        if !truthy results then .ok "No results returned"
        else
          match pyIndexZero results with
          | .error e => .error e
          | .ok query_result =>
            match pyGet query_result "error" .null with
            | .error e => .error e
            | .ok qerr =>
              if truthy qerr then
                match pyGet qerr "message" (.str "Unknown error") with
                | .error e => .error e
                | .ok error_msg => .ok ("Error: " ++ pyStr error_msg)
              else
                match pyGet query_result "tables" (.arr []) with
                | .error e => .error e
                | .ok tables =>
                  if !truthy tables then .ok "No tables returned"
                  else
                    match pyIndexZero tables with
                    | .error e => .error e
                    | .ok table0 =>
                      match pyGet table0 "rows" (.arr []) with
                      | .error e => .error e
                      | .ok rows =>
                        if !truthy rows then .ok "No rows returned"
                        else .ok (json_dumps rows)

/-- Model of `execute_dax_query_tool` of `backend/ai/tools/execute_dax_query_tool.py`
(identical to `get_dax_result` of `backend/ai/dax_agent.py`): configuration
check first (returning, not raising, a textual error and performing no
credential or network call); then credential acquisition, the POST to the
Execute Queries endpoint (its response given as `resp`), the non-200 error
string, and the 200 unwrap.  The second component is the effect trace. -/
def execute_dax_query_tool (config : ToolConfig) (_dax_query : String)
    (resp : QueryHttpResponse) : Except PyExn String × List Effect :=
  if !strTruthy config.powerbi_workspace_id || !strTruthy config.powerbi_dataset_id then
    (.ok "Error: POWERBI_WORKSPACE_ID and POWERBI_DATASET_ID must be set in environment variables",
     [])
  else
    let api_url := "https://api.powerbi.com/v1.0/myorg/groups/" ++
      (config.powerbi_workspace_id.getD "") ++ "/datasets/" ++
      (config.powerbi_dataset_id.getD "") ++ "/executeQueries"
    let effects := [Effect.credentialAcquired, Effect.httpPost api_url]
    if resp.status != 200 then
      (.ok ("Error executing DAX query: " ++ resp.text), effects)
    else
      (unwrap_query_response resp.body, effects)

/-- Shape condition under which the 200-unwrap of the Query Executor performs
no `.get`/`[0]` on a value of the wrong runtime type: the body is a JSON
object; a truthy `error` value is an object; a truthy `results` value is an
array headed by an object; within it, a truthy `error` value is an object and
a truthy `tables` value is an array headed by an object. -/
def query_response_well_shaped (result : Json) : Bool :=
  match result with
  | .obj fs =>
    let err := (fs.lookup "error").getD .null
    if truthy err then
      match err with | .obj _ => true | _ => false
    else
      let results := (fs.lookup "results").getD (.arr [])
      if !truthy results then true
      else
        match results with
        | .arr (.obj qfs :: _) =>
          let qerr := (qfs.lookup "error").getD .null
          if truthy qerr then
            match qerr with | .obj _ => true | _ => false
          else
            let tables := (qfs.lookup "tables").getD (.arr [])
            if !truthy tables then true
            else
              match tables with
              | .arr (.obj _ :: _) => true
              | _ => false
        | _ => false
  | _ => false

/-- The body shape reaching `return "No results returned"`: an object with no
truthy `error` and a falsy (absent/empty/null) `results`. -/
def no_results_case (result : Json) : Bool :=
  match result with
  | .obj fs =>
    !truthy ((fs.lookup "error").getD .null) &&
    !truthy ((fs.lookup "results").getD (.arr []))
  | _ => false

/-- The body shape reaching `return "No tables returned"`: no truthy errors,
`results` an array headed by an object whose `tables` is falsy. -/
def no_tables_case (result : Json) : Bool :=
  match result with
  | .obj fs =>
    !truthy ((fs.lookup "error").getD .null) &&
    (match (fs.lookup "results").getD (.arr []) with
     | .arr (.obj qfs :: _) =>
       !truthy ((qfs.lookup "error").getD .null) &&
       !truthy ((qfs.lookup "tables").getD (.arr []))
     | _ => false)
  | _ => false

/-- The body shape reaching `return "No rows returned"`: no truthy errors,
`results[0]` and `tables[0]` objects, and `tables[0].rows` falsy. -/
def no_rows_case (result : Json) : Bool :=
  match result with
  | .obj fs =>
    !truthy ((fs.lookup "error").getD .null) &&
    (match (fs.lookup "results").getD (.arr []) with
     | .arr (.obj qfs :: _) =>
       !truthy ((qfs.lookup "error").getD .null) &&
       (match (qfs.lookup "tables").getD (.arr []) with
        | .arr (.obj tfs :: _) =>
          !truthy ((tfs.lookup "rows").getD (.arr []))
        | _ => false)
     | _ => false)
  | _ => false

/-- The four `dataRole` literals of `DataField` (`backend/models/visual_models.py`). -/
inductive DataRole where
  | category
  | y
  | series
  | tooltips
deriving Repr, DecidableEq

/-- The serialized form of a `DataRole`, i.e. the `Literal["Category", "Y",
"Series", "Tooltips"]` value it came from. -/
def dataRoleString : DataRole → String
  | .category => "Category"
  | .y => "Y"
  | .series => "Series"
  | .tooltips => "Tooltips"

/-- The six `visualType` literals of `VisualConfig` (`backend/models/visual_models.py`). -/
inductive VisualType where
  | columnChart
  | barChart
  | pieChart
  | lineChart
  | areaChart
  | donutChart
deriving Repr, DecidableEq

/-- Model of `DataField` of `backend/models/visual_models.py`. -/
structure DataField where
  dataRole : DataRole
  table : String
  column : String
  isMeasure : Bool
deriving Repr, DecidableEq

/-- Model of `VisualProperties` of `backend/models/visual_models.py`. -/
structure VisualProperties where
  showLegend : Bool
  showXAxis : Bool
  showYAxis : Bool
deriving Repr, DecidableEq

/-- Model of `VisualConfig` of `backend/models/visual_models.py`. -/
structure VisualConfig where
  visualType : VisualType
  title : String
  dataFields : List DataField
  properties : VisualProperties
deriving Repr, DecidableEq

/-- Pydantic validation of the `dataRole` field: exactly the four literal
strings are accepted. -/
def parseDataRole : Json → Option DataRole
  | .str "Category" => some .category
  | .str "Y" => some .y
  | .str "Series" => some .series
  | .str "Tooltips" => some .tooltips
  | _ => none

/-- Pydantic validation of the `visualType` field: exactly the six literal
strings are accepted. -/
def parseVisualType : Json → Option VisualType
  | .str "columnChart" => some .columnChart
  | .str "barChart" => some .barChart
  | .str "pieChart" => some .pieChart
  | .str "lineChart" => some .lineChart
  | .str "areaChart" => some .areaChart
  | .str "donutChart" => some .donutChart
  | _ => none

/-- Pydantic validation of a `str` field. -/
def parseStr : Json → Option String
  | .str s => some s
  | _ => none

/-- Pydantic validation of a `bool` field: only JSON booleans. -/
def parseBool : Json → Option Bool
  | .bool b => some b
  | _ => none

/-- Pydantic validation of a `DataField` object with
`model_config = ConfigDict(extra="forbid")`: all four declared fields must be
present and well-typed, and no undeclared key may appear. -/
def parseDataField (j : Json) : Option DataField :=
  match j with
  | .obj fs =>
    if fs.all (fun kv => ["dataRole", "table", "column", "isMeasure"].contains kv.1) then
      match fs.lookup "dataRole", fs.lookup "table", fs.lookup "column", fs.lookup "isMeasure" with
      | some dr, some t, some c, some m =>
        match parseDataRole dr, parseStr t, parseStr c, parseBool m with
        | some dr, some t, some c, some m => some ⟨dr, t, c, m⟩
        | _, _, _, _ => none
      | _, _, _, _ => none
    else none
  | _ => none

/-- Pydantic validation of a `VisualProperties` object (`extra="forbid"`). -/
def parseVisualProperties (j : Json) : Option VisualProperties :=
  match j with
  | .obj fs =>
    if fs.all (fun kv => ["showLegend", "showXAxis", "showYAxis"].contains kv.1) then
      match fs.lookup "showLegend", fs.lookup "showXAxis", fs.lookup "showYAxis" with
      | some l, some x, some y =>
        match parseBool l, parseBool x, parseBool y with
        | some l, some x, some y => some ⟨l, x, y⟩
        | _, _, _ => none
      | _, _, _ => none
    else none
  | _ => none

/-- Pydantic validation of a `VisualConfig` object (`extra="forbid"`): the
fixed schema the visual translator's output is validated against. -/
def parseVisualConfig (j : Json) : Option VisualConfig :=
  match j with
  | .obj fs =>
    if fs.all (fun kv => ["visualType", "title", "dataFields", "properties"].contains kv.1) then
      match fs.lookup "visualType", fs.lookup "title", fs.lookup "dataFields", fs.lookup "properties" with
      | some vt, some ti, some dfs, some pr =>
        match parseVisualType vt, parseStr ti, pr |> parseVisualProperties with
        | some vt, some ti, some pr =>
          match dfs with
          | .arr xs =>
            match xs.mapM parseDataField with
            | some fields => some ⟨vt, ti, fields, pr⟩
            | none => none
          | _ => none
        | _, _, _ => none
      | _, _, _, _ => none
    else none
  | _ => none

/-- Model of `VisualCreatorAgent.generate_visual_config`
(`backend/ai/agents/visual_creator_agent.py`): raises `RuntimeError` when not
started; otherwise runs the agent with `response_format=VisualConfig` — the
framework's schema-constrained parse of the model's raw JSON output (`raw`)
is pydantic validation against `VisualConfig`, and the handler's
`isinstance(result.value, VisualConfig)` gate accepts exactly a successful
parse, raising `ValueError` otherwise. -/
def generate_visual_config (client : Option Unit) (raw : Json) :
    Except PyExn VisualConfig :=
  match client with
  | none => .error (.runtimeError "VisualCreatorAgent not started. Call start() first.")
  | some _ =>
    match parseVisualConfig raw with
    | some c => .ok c
    | none => .error (.valueError "Invalid visual config response from agent")

/-- An HTTP response from the Power BI REST API as consumed by the token
generator (`backend/generate_pbi_token.py`): status code and parsed JSON
body.  The bodies these endpoints return are JSON objects, so they are
modelled directly as association lists. -/
structure RestResponse where
  status : Nat
  body : List (String × Json)
deriving Repr

/-- Python `d.get(k)` on a parsed-JSON dict (default `None`). -/
def dictGet (d : List (String × Json)) (k : String) : Json :=
  (d.lookup k).getD .null

/-- Python `d.get(k, default)` on a parsed-JSON dict. -/
def dictGetD (d : List (String × Json)) (k : String) (default : Json) : Json :=
  (d.lookup k).getD default

/-- The JSON value stored for an `Optional[str]` Python argument. -/
def jsonOfOptStr : Option String → Json
  | some s => .str s
  | none => .null

/-- Model of `PowerBITokenGenerator.generate_embed_token` of
`backend/generate_pbi_token.py`, from the point where the token-issuance POST
has been sent.  `tokenResp` is the `GenerateToken` response, `reportResp` the
report-details GET response, `pagesResp` the report-pages GET response (the
source's `get_report_pages` yields `{"value": []}` on a non-200 status).
Returns the descriptor dict; `{}` when token issuance itself fails. -/
def generate_embed_token (report_id : String) (workspace_id : Option String)
    (tokenResp reportResp pagesResp : RestResponse) : List (String × Json) :=
  if tokenResp.status == 200 then
    let token_info := tokenResp.body
    if reportResp.status == 200 then
      let report_details := reportResp.body
      let pages := if pagesResp.status == 200 then pagesResp.body else [("value", Json.arr [])]
      [("embedToken", dictGet token_info "token"),
       ("tokenExpiry", dictGet token_info "expiration"),
       ("embedUrl", dictGet report_details "embedUrl"),
       ("reportId", .str report_id),
       ("workspaceId", jsonOfOptStr workspace_id),
       ("reportName", dictGetD report_details "name" (.str "Unknown")),
       ("pages", if pages.isEmpty then .arr [] else dictGetD pages "value" (.arr [])),
       ("visuals", .arr []),
       ("visualDiscoveryNote", .str "Visual discovery requires client-side JavaScript API after report embedding")]
    else
      [("embedToken", dictGet token_info "token"),
       ("tokenExpiry", dictGet token_info "expiration"),
       ("embedUrl", .str ("https://app.powerbi.com/reportEmbed?reportId=" ++ report_id ++
          (match workspace_id with
           | some w => if w != "" then "&groupId=" ++ w else ""
           | none => ""))),
       ("reportId", .str report_id),
       ("workspaceId", jsonOfOptStr workspace_id),
       ("reportName", .str "Unknown"),
       ("visuals", .arr [])]
  else []

/-- Python `dict.__setitem__`-style single-key write used by `dict.update`. -/
def dict_set (d : List (String × Json)) (k : String) (v : Json) : List (String × Json) :=
  if d.any (fun kv => kv.1 == k) then
    d.map (fun kv => if kv.1 == k then (k, v) else kv)
  else d ++ [(k, v)]

/-- Python `d.update(upd)`: every binding of `upd` written into `d` in order. -/
def dict_update (d upd : List (String × Json)) : List (String × Json) :=
  upd.foldl (fun acc kv => dict_set acc kv.1 kv.2) d

/-- Model of `generate_powerbi_token` of `backend/main.py` (run at startup and by GET
`/api/powerbi/refresh-token`), with the process-wide `powerbi_token_info`
threaded explicitly.  `gen_result` is the outcome of the awaited
`generator.generate_embed_token(...)` call: an exception, or the dict it
returned (`{}` on a non-200 token-issuance response).  The cache is updated
only when a truthy `embedToken` came back; on every other outcome — missing
report id, raised exception, falsy/absent token — the cache is returned
untouched (the failure is only logged). -/
def generate_powerbi_token (powerbi_token_info : List (String × Json))
    (report_id : Option String)
    (gen_result : Except PyExn (List (String × Json))) : List (String × Json) :=
  if !strTruthy report_id then powerbi_token_info
  else
    match gen_result with
    | .error _ => powerbi_token_info
    | .ok token_info =>
      if !token_info.isEmpty && truthy (dictGet token_info "embedToken") then
        dict_update powerbi_token_info token_info
      else powerbi_token_info

set_option maxRecDepth 100000

/-- C10: For every state of the conversation history, performing the
clear-history operation (DELETE `/api/chat/history`) and then the
fetch-history operation (GET `/api/chat/history`) yields an empty message
sequence. -/
theorem clear_then_fetch_history_empty (conversation_history : History) :
    get_chat_history (clear_chat_history conversation_history).1 = [] := rfl

/-- C3, the code's actual behaviour at the failing input: a POST `/api/chat`
with an empty `messages` list does not fail with HTTP 400 — the
`HTTPException(400, "No message provided")` raised inside the `try:` block is
caught by the handler's own `except Exception` clause and re-raised as an
HTTP 500 whose detail wraps the stringified 400. -/
theorem chat_empty_messages_yields_500 (generate_dax : String → Except PyExn String) :
    (chat_with_agent [] [] generate_dax).2 =
      .error (.httpExc 500 "Error processing chat: 400: No message provided") := rfl

/-- C1 (amended): the entries the chat handler appends to the process-wide
conversation history depend on the path taken: two entries (user then
assistant) on agent success, exactly one entry (the user message) when the
agent call raises — the 500 error path leaves the user message appended but
never reaches the assistant append — and none when the messages list is
empty. -/
theorem chat_appends_by_path (conversation_history : History)
    (messages : List ChatMessage) (generate_dax : String → Except PyExn String) :
    (chat_with_agent conversation_history messages generate_dax).1 =
      match messages.getLast? with
      | none => conversation_history
      | some m =>
        match generate_dax m.content with
        | .ok r => conversation_history ++ [⟨m.role, m.content⟩, ⟨"assistant", r⟩]
        | .error _ => conversation_history ++ [⟨m.role, m.content⟩] := by
  unfold chat_with_agent chat_try_body
  cases h : messages.getLast? with
  | none => simp
  | some m => cases hg : generate_dax m.content <;> simp [hg]

/-- C1, counterexample to the claim as stated: on the agent-failure path the
exchange appends exactly one entry (the user message), not two. -/
theorem chat_failure_appends_one_entry :
    (chat_with_agent [] [⟨"user", "Hi"⟩] (fun _ => .error (.runtimeError "boom"))).1 =
      [⟨"user", "Hi"⟩] ∧
    ((chat_with_agent [] [⟨"user", "Hi"⟩] (fun _ => .error (.runtimeError "boom"))).1).length ≠ 2 :=
  ⟨rfl, by decide⟩

/-- C2, counterexample to the claim as stated: the `/api/chat` handler of
`backend/main.py` is backed by `DaxAgent`, not by the mock-capable
`AgentService`.  With no agent configured, `DaxAgent.__init__` raises
`RuntimeError` (so the module-level `dax_agent = DaxAgent()` prevents the app
from starting at all), and with an agent that was never started the handler
turns the `RuntimeError` into an HTTP 500 error — there is no assistant
response containing "Hello". -/
theorem chat_hello_no_agent_yields_500 :
    daxAgent_init none =
      .error (.runtimeError "AZURE_AI_PROJECT_ENDPOINT is required to initialize DAX agent.") ∧
    (chat_with_agent [] [⟨"user", "Hello"⟩]
        (generate_dax_query none (fun _ => .ok ""))).2 =
      .error (.httpExc 500 "Error processing chat: DaxAgent not started. Call start() first.") :=
  ⟨rfl, rfl⟩

/-- C2 (amended): the response whose role is "assistant" and whose message
contains "Hello" is produced only by the `AgentService.chat` mock path (which
the `/api/chat` handler does not use): with no agent configured,
`AgentService.chat` on `[{role: user, content: "Hello"}]` and no context
returns the deterministic mock text, which contains the substring "Hello";
the `DaxAgent`-backed handler itself fails with an error for every agent-run
behaviour when the agent was never started. -/
theorem chat_hello_mock_path_vs_handler :
    (∃ pre post,
      agent_service_chat none (fun _ => .ok "") [⟨"user", "Hello"⟩] none =
        pre ++ "Hello" ++ post) ∧
    (∀ agentRun : String → Except PyExn String, ∃ e,
      (chat_with_agent [] [⟨"user", "Hello"⟩] (generate_dax_query none agentRun)).2 =
        Except.error e) := by
  constructor
  · exact ⟨(mock_response "Hello").take 35, (mock_response "Hello").drop 40, by decide⟩
  · intro agentRun
    exact ⟨.httpExc 500 "Error processing chat: DaxAgent not started. Call start() first.", rfl⟩

/-- C4: Every value returned by the visual translator validates against the
fixed `VisualConfig` schema — in particular the returned config is exactly
the schema-validated parse of the agent's raw output, and every `dataFields`
entry carries a `dataRole` that serializes to one of the four enumerated
literals (its `isMeasure` being a `Bool` forced by the schema's `parseBool`,
which accepts only JSON booleans) — and any agent output that does not
validate makes the call raise rather than return any value. -/
theorem visual_config_always_schema_valid (client : Option Unit) (raw : Json) :
    (∀ c, generate_visual_config client raw = .ok c →
      parseVisualConfig raw = some c ∧
      c.dataFields.all
        (fun f => ["Category", "Y", "Series", "Tooltips"].contains (dataRoleString f.dataRole)) = true) ∧
    (parseVisualConfig raw = none →
      ∃ e, generate_visual_config client raw = .error e) := by
  constructor
  · intro c hc
    cases client with
    | none => simp [generate_visual_config] at hc
    | some _ =>
      cases hp : parseVisualConfig raw with
      | none => simp [generate_visual_config, hp] at hc
      | some c' =>
        simp [generate_visual_config, hp] at hc
        subst hc
        refine ⟨rfl, ?_⟩
        simp only [List.all_eq_true]
        intro f _
        cases f.dataRole <;> rfl
  · intro hp
    cases client with
    | none =>
      exact ⟨.runtimeError "VisualCreatorAgent not started. Call start() first.", rfl⟩
    | some _ =>
      refine ⟨.valueError "Invalid visual config response from agent", ?_⟩
      simp [generate_visual_config, hp]

/-- Witness for `visual_config_always_schema_valid`: a concrete schema-valid
raw output is returned parsed, with every data role among the four literals;
a concrete non-conforming output (`null`) makes the call raise. -/
theorem visual_config_always_schema_valid_witness :
    (parseVisualConfig (Json.obj
        [("visualType", .str "columnChart"),
         ("title", .str "Sales by Category"),
         ("dataFields", .arr [Json.obj
            [("dataRole", .str "Category"), ("table", .str "Category"),
             ("column", .str "Category"), ("isMeasure", .bool false)]]),
         ("properties", Json.obj
            [("showLegend", .bool false), ("showXAxis", .bool true),
             ("showYAxis", .bool true)])]) =
      some ⟨.columnChart, "Sales by Category",
            [⟨.category, "Category", "Category", false⟩], ⟨false, true, true⟩⟩ ∧
     (VisualConfig.mk .columnChart "Sales by Category"
            [⟨.category, "Category", "Category", false⟩] ⟨false, true, true⟩).dataFields.all
        (fun f => ["Category", "Y", "Series", "Tooltips"].contains (dataRoleString f.dataRole)) = true) ∧
    (∃ e, generate_visual_config (some ()) Json.null = .error e) :=
  ⟨(visual_config_always_schema_valid (some ()) (Json.obj
        [("visualType", .str "columnChart"),
         ("title", .str "Sales by Category"),
         ("dataFields", .arr [Json.obj
            [("dataRole", .str "Category"), ("table", .str "Category"),
             ("column", .str "Category"), ("isMeasure", .bool false)]]),
         ("properties", Json.obj
            [("showLegend", .bool false), ("showXAxis", .bool true),
             ("showYAxis", .bool true)])])).1
      ⟨.columnChart, "Sales by Category",
       [⟨.category, "Category", "Category", false⟩], ⟨false, true, true⟩⟩ (by rfl),
   (visual_config_always_schema_valid (some ()) Json.null).2 (by rfl)⟩

/-- C5: When the workspace identifier or the dataset identifier is unset
(or empty, which is equally falsy), the Query Executor tool returns — without
raising — a string beginning with "Error:", and its effect trace is empty: no
credential acquisition and no network request happens. -/
theorem tool_unset_config_textual_error (config : ToolConfig) (dax_query : String)
    (resp : QueryHttpResponse)
    (h : strTruthy config.powerbi_workspace_id = false ∨
         strTruthy config.powerbi_dataset_id = false) :
    (execute_dax_query_tool config dax_query resp).2 = [] ∧
    ∃ s rest, (execute_dax_query_tool config dax_query resp).1 = .ok s ∧
      s = "Error:" ++ rest := by
  have hcond : (!strTruthy config.powerbi_workspace_id ||
      !strTruthy config.powerbi_dataset_id) = true := by
    rcases h with h | h <;> simp [h]
  refine ⟨?_,
    "Error: POWERBI_WORKSPACE_ID and POWERBI_DATASET_ID must be set in environment variables",
    " POWERBI_WORKSPACE_ID and POWERBI_DATASET_ID must be set in environment variables",
    ?_, by decide⟩
  · simp [execute_dax_query_tool, hcond]
  · simp [execute_dax_query_tool, hcond]

/-- Witness for `tool_unset_config_textual_error`: a concrete call with the
workspace identifier unset. -/
theorem tool_unset_config_textual_error_witness :
    (execute_dax_query_tool ⟨none, some "d1"⟩ "EVALUATE Orders" ⟨200, "", Json.null⟩).2 = [] ∧
    ∃ s rest, (execute_dax_query_tool ⟨none, some "d1"⟩ "EVALUATE Orders" ⟨200, "", Json.null⟩).1 = .ok s ∧
      s = "Error:" ++ rest :=
  tool_unset_config_textual_error ⟨none, some "d1"⟩ "EVALUATE Orders" ⟨200, "", Json.null⟩
    (Or.inl rfl)

/-- C8: When token issuance succeeds (a 200 `GenerateToken` response carrying
a non-empty token) but the subsequent report-metadata fetch fails, the
descriptor returned by `generate_embed_token` still contains that non-empty
`embedToken`, and an `embedUrl` synthesized from the report identifier plus
the workspace identifier when a (truthy) one was given. -/
theorem embed_token_survives_metadata_failure (report_id : String)
    (workspace_id : Option String) (tokenResp reportResp pagesResp : RestResponse)
    (tok : String)
    (h200 : tokenResp.status = 200)
    (htok : tokenResp.body.lookup "token" = some (.str tok))
    (hne : tok ≠ "")
    (hrep : reportResp.status ≠ 200) :
    (generate_embed_token report_id workspace_id tokenResp reportResp pagesResp).lookup
        "embedToken" = some (.str tok) ∧
    tok ≠ "" ∧
    (generate_embed_token report_id workspace_id tokenResp reportResp pagesResp).lookup
        "embedUrl" =
      some (.str ("https://app.powerbi.com/reportEmbed?reportId=" ++ report_id ++
        (match workspace_id with
         | some w => if w != "" then "&groupId=" ++ w else ""
         | none => ""))) := by
  refine ⟨?_, hne, ?_⟩ <;>
    simp [generate_embed_token, h200, hrep, dictGet, htok, List.lookup]

/-- Witness for `embed_token_survives_metadata_failure`: concrete 200 token
response with token "tok123", report fetch failing with 404. -/
theorem embed_token_survives_metadata_failure_witness :
    (generate_embed_token "r1" (some "w1") ⟨200, [("token", .str "tok123")]⟩
        ⟨404, []⟩ ⟨404, []⟩).lookup "embedToken" = some (.str "tok123") ∧
    ("tok123" : String) ≠ "" ∧
    (generate_embed_token "r1" (some "w1") ⟨200, [("token", .str "tok123")]⟩
        ⟨404, []⟩ ⟨404, []⟩).lookup "embedUrl" =
      some (.str ("https://app.powerbi.com/reportEmbed?reportId=" ++ "r1" ++
        (match (some "w1" : Option String) with
         | some w => if w != "" then "&groupId=" ++ w else ""
         | none => ""))) :=
  embed_token_survives_metadata_failure "r1" (some "w1") ⟨200, [("token", .str "tok123")]⟩
    ⟨404, []⟩ ⟨404, []⟩ "tok123" rfl rfl (by decide) (by decide)

/-- C9: When token generation during startup or an explicit refresh fails —
the awaited `generate_embed_token` call raises, or returns a dict with no
truthy `embedToken` (including the empty dict returned on a non-200
token-issuance response) — the process-wide cached `powerbi_token_info` is
returned exactly as it was: a previously generated token is never overwritten
or cleared by a failed refresh. -/
theorem failed_refresh_preserves_token_cache (powerbi_token_info : List (String × Json))
    (report_id : Option String) (gen_result : Except PyExn (List (String × Json)))
    (h : (∃ e, gen_result = .error e) ∨
         (∃ token_info, gen_result = .ok token_info ∧
            truthy (dictGet token_info "embedToken") = false)) :
    generate_powerbi_token powerbi_token_info report_id gen_result = powerbi_token_info := by
  unfold generate_powerbi_token
  by_cases hr : strTruthy report_id
  · rcases h with ⟨e, he⟩ | ⟨token_info, hti, hfalse⟩
    · simp [hr, he]
    · simp [hr, hti, hfalse]
  · simp [hr]

/-- Witness for `failed_refresh_preserves_token_cache`: a populated cache, a
configured report id, and a refresh that came back as the empty dict. -/
theorem failed_refresh_preserves_token_cache_witness :
    generate_powerbi_token [("embedToken", .str "old"), ("embedUrl", .str "u")]
      (some "r1") (.ok []) = [("embedToken", .str "old"), ("embedUrl", .str "u")] :=
  failed_refresh_preserves_token_cache [("embedToken", .str "old"), ("embedUrl", .str "u")]
    (some "r1") (.ok []) (Or.inr ⟨[], rfl, rfl⟩)

/-- C6 (amended): on every 200-status body that is shape-conforming — a JSON
object whose truthy `error` values are objects and whose truthy `results` /
`tables` values are arrays headed by objects — the unwrap never raises and
returns a string, and absence (falsiness) of `results`, `tables` or `rows` at
the corresponding unwrap stage yields exactly "No results returned",
"No tables returned" or "No rows returned"; for non-conforming shapes (e.g. a
200 body that is a bare JSON string) the Python attribute/index access raises
instead of returning a string. -/
theorem unwrap_never_raises_when_well_shaped (body : Json)
    (h : query_response_well_shaped body = true) :
    (∃ s, unwrap_query_response body = .ok s) ∧
    (no_results_case body = true → unwrap_query_response body = .ok "No results returned") ∧
    (no_tables_case body = true → unwrap_query_response body = .ok "No tables returned") ∧
    (no_rows_case body = true → unwrap_query_response body = .ok "No rows returned") := by
  cases body with
  | null => simp [query_response_well_shaped] at h
  | bool b => simp [query_response_well_shaped] at h
  | num n => simp [query_response_well_shaped] at h
  | str s => simp [query_response_well_shaped] at h
  | arr xs => simp [query_response_well_shaped] at h
  | obj fs =>
    simp only [query_response_well_shaped] at h
    split at h
    · -- truthy top-level error
      next heT =>
      split at h
      · -- the error value is an object
        next efs heq =>
        rw [heq] at heT
        refine ⟨⟨"Error: " ++ pyStr ((efs.lookup "message").getD (.str "Unknown error")), ?_⟩,
          ?_, ?_, ?_⟩
        · simp [unwrap_query_response, pyGet, heT, heq]
        · intro hc; simp [no_results_case, heq, heT] at hc
        · intro hc; simp [no_tables_case, heq, heT] at hc
        · intro hc; simp [no_rows_case, heq, heT] at hc
      · next => exact absurd h (by decide)
    · -- falsy top-level error
      next heN =>
      have heF : truthy ((fs.lookup "error").getD Json.null) = false := by
        simpa using heN
      split at h
      · -- falsy results: "No results returned"
        next hnrT =>
        have hresF : truthy ((fs.lookup "results").getD (Json.arr [])) = false := by
          simpa using hnrT
        refine ⟨⟨"No results returned", ?_⟩, ?_, ?_, ?_⟩
        · simp [unwrap_query_response, pyGet, heF, hresF]
        · intro _; simp [unwrap_query_response, pyGet, heF, hresF]
        · intro hc
          simp only [no_tables_case, heF, Bool.not_false, Bool.true_and] at hc
          split at hc
          · next qfs rest heqr =>
            rw [heqr] at hresF; simp [truthy] at hresF
          · next => exact absurd hc (by decide)
        · intro hc
          simp only [no_rows_case, heF, Bool.not_false, Bool.true_and] at hc
          split at hc
          · next qfs rest heqr =>
            rw [heqr] at hresF; simp [truthy] at hresF
          · next => exact absurd hc (by decide)
      · -- truthy results
        next hnrN =>
        have hresT : truthy ((fs.lookup "results").getD (Json.arr [])) = true := by
          simpa using hnrN
        split at h
        · -- results is an array headed by an object
          next qfs rest heqr =>
          have harr : truthy (Json.arr (Json.obj qfs :: rest)) = true := rfl
          split at h
          · -- truthy per-query error
            next hqeT =>
            split at h
            · next eqfs heqq =>
              rw [heqq] at hqeT
              refine ⟨⟨"Error: " ++ pyStr ((eqfs.lookup "message").getD (.str "Unknown error")), ?_⟩,
                ?_, ?_, ?_⟩
              · simp [unwrap_query_response, pyGet, pyIndexZero, heF, heqr, harr, hqeT, heqq]
              · intro hc; simp [no_results_case, heF, heqr, truthy] at hc
              · intro hc; simp [no_tables_case, heF, heqr, heqq, hqeT] at hc
              · intro hc; simp [no_rows_case, heF, heqr, heqq, hqeT] at hc
            · next => exact absurd h (by decide)
          · -- falsy per-query error
            next hqeN =>
            have hqeF : truthy ((qfs.lookup "error").getD Json.null) = false := by
              simpa using hqeN
            split at h
            · -- falsy tables: "No tables returned"
              next hntT =>
              have htabF : truthy ((qfs.lookup "tables").getD (Json.arr [])) = false := by
                simpa using hntT
              refine ⟨⟨"No tables returned", ?_⟩, ?_, ?_, ?_⟩
              · simp [unwrap_query_response, pyGet, pyIndexZero, heF, heqr, harr, hqeF, htabF]
              · intro hc; simp [no_results_case, heF, heqr, truthy] at hc
              · intro _
                simp [unwrap_query_response, pyGet, pyIndexZero, heF, heqr, harr, hqeF, htabF]
              · intro hc
                simp only [no_rows_case, heF, Bool.not_false, Bool.true_and, heqr] at hc
                simp only [hqeF, Bool.not_false, Bool.true_and] at hc
                split at hc
                · next tfs trest heqt =>
                  rw [heqt] at htabF; simp [truthy] at htabF
                · next => exact absurd hc (by decide)
            · -- truthy tables
              next hntN =>
              have htabT : truthy ((qfs.lookup "tables").getD (Json.arr [])) = true := by
                simpa using hntN
              split at h
              · -- tables is an array headed by an object
                next tfs trest heqt =>
                have harrt : truthy (Json.arr (Json.obj tfs :: trest)) = true := rfl
                by_cases hrows : truthy ((tfs.lookup "rows").getD (Json.arr [])) = true
                · -- rows present: the serialized row set
                  refine ⟨⟨json_dumps ((tfs.lookup "rows").getD (Json.arr [])), ?_⟩,
                    ?_, ?_, ?_⟩
                  · simp [unwrap_query_response, pyGet, pyIndexZero, heF, heqr, harr, hqeF, heqt, harrt, hrows]
                  · intro hc; simp [no_results_case, heF, heqr, truthy] at hc
                  · intro hc; simp [no_tables_case, heF, heqr, hqeF, heqt, truthy] at hc
                  · intro hc; simp [no_rows_case, heF, heqr, hqeF, heqt, hrows] at hc
                · -- rows absent/empty: "No rows returned"
                  have hrowsF : truthy ((tfs.lookup "rows").getD (Json.arr [])) = false := by
                    simpa using hrows
                  refine ⟨⟨"No rows returned", ?_⟩, ?_, ?_, ?_⟩
                  · simp [unwrap_query_response, pyGet, pyIndexZero, heF, heqr, harr, hqeF, heqt, harrt, hrowsF]
                  · intro hc; simp [no_results_case, heF, heqr, truthy] at hc
                  · intro hc; simp [no_tables_case, heF, heqr, hqeF, heqt, truthy] at hc
                  · intro _
                    simp [unwrap_query_response, pyGet, pyIndexZero, heF, heqr, harr, hqeF, heqt, harrt, hrowsF]
              · next => exact absurd h (by decide)
        · next => exact absurd h (by decide)

/-- Witness for `unwrap_never_raises_when_well_shaped`: a concrete
shape-conforming 200 body with `results[0].tables[0].rows` empty. -/
theorem unwrap_never_raises_when_well_shaped_witness :
    (∃ s, unwrap_query_response (Json.obj [("results", Json.arr [Json.obj
        [("tables", Json.arr [Json.obj [("rows", Json.arr [])]])]])]) = .ok s) ∧
    (no_results_case (Json.obj [("results", Json.arr [Json.obj
        [("tables", Json.arr [Json.obj [("rows", Json.arr [])]])]])]) = true →
      unwrap_query_response (Json.obj [("results", Json.arr [Json.obj
        [("tables", Json.arr [Json.obj [("rows", Json.arr [])]])]])]) = .ok "No results returned") ∧
    (no_tables_case (Json.obj [("results", Json.arr [Json.obj
        [("tables", Json.arr [Json.obj [("rows", Json.arr [])]])]])]) = true →
      unwrap_query_response (Json.obj [("results", Json.arr [Json.obj
        [("tables", Json.arr [Json.obj [("rows", Json.arr [])]])]])]) = .ok "No tables returned") ∧
    (no_rows_case (Json.obj [("results", Json.arr [Json.obj
        [("tables", Json.arr [Json.obj [("rows", Json.arr [])]])]])]) = true →
      unwrap_query_response (Json.obj [("results", Json.arr [Json.obj
        [("tables", Json.arr [Json.obj [("rows", Json.arr [])]])]])]) = .ok "No rows returned") :=
  unwrap_never_raises_when_well_shaped
    (Json.obj [("results", Json.arr [Json.obj
        [("tables", Json.arr [Json.obj [("rows", Json.arr [])]])]])]) (by rfl)

/-- C6, counterexample to the claim as stated: a 200 response whose body is
the bare JSON string `"ok"` makes the unwrap raise (`result.get("error")` is
an `AttributeError` on a `str`), so the function does not return a string for
every shape of 200 response data. -/
theorem unwrap_string_body_raises :
    (execute_dax_query_tool ⟨some "w1", some "d1"⟩ "EVALUATE Orders"
       ⟨200, "ok", Json.str "ok"⟩).1 = .error .attributeError := rfl

/-- C7 (amended): every Query Executor call that receives a 200 response whose
body carries no truthy top-level or per-query `error` field and has
`results[0].tables[0].rows` equal to the empty list returns exactly the
literal string "No rows returned". -/
theorem rows_empty_returns_no_rows (config : ToolConfig) (dax_query : String)
    (resp : QueryHttpResponse)
    (hw : strTruthy config.powerbi_workspace_id = true)
    (hd : strTruthy config.powerbi_dataset_id = true)
    (h200 : resp.status = 200)
    (fs qfs tfs : List (String × Json)) (rest1 rest2 : List Json)
    (hbody : resp.body = .obj fs)
    (herr : truthy ((fs.lookup "error").getD Json.null) = false)
    (hres : (fs.lookup "results").getD (Json.arr []) = Json.arr (Json.obj qfs :: rest1))
    (hqerr : truthy ((qfs.lookup "error").getD Json.null) = false)
    (htab : (qfs.lookup "tables").getD (Json.arr []) = Json.arr (Json.obj tfs :: rest2))
    (hrows : tfs.lookup "rows" = some (Json.arr [])) :
    (execute_dax_query_tool config dax_query resp).1 = .ok "No rows returned" := by
  have harr : truthy (Json.arr (Json.obj qfs :: rest1)) = true := rfl
  have harrt : truthy (Json.arr (Json.obj tfs :: rest2)) = true := rfl
  have hempty : truthy (Json.arr []) = false := rfl
  simp [execute_dax_query_tool, hw, hd, h200, hbody, unwrap_query_response, pyGet,
    pyIndexZero, herr, hres, harr, hqerr, htab, harrt, hrows, hempty]

/-- Witness for `rows_empty_returns_no_rows`: a fully concrete call. -/
theorem rows_empty_returns_no_rows_witness :
    (execute_dax_query_tool ⟨some "w1", some "d1"⟩ "EVALUATE Orders"
       ⟨200, "", Json.obj [("results", Json.arr [Json.obj
          [("tables", Json.arr [Json.obj [("rows", Json.arr [])]])]])]⟩).1 =
      .ok "No rows returned" :=
  rows_empty_returns_no_rows ⟨some "w1", some "d1"⟩ "EVALUATE Orders"
    ⟨200, "", Json.obj [("results", Json.arr [Json.obj
        [("tables", Json.arr [Json.obj [("rows", Json.arr [])]])]])]⟩
    rfl rfl rfl
    [("results", Json.arr [Json.obj [("tables", Json.arr [Json.obj [("rows", Json.arr [])]])]])]
    [("tables", Json.arr [Json.obj [("rows", Json.arr [])]])]
    [("rows", Json.arr [])] [] []
    rfl rfl rfl rfl rfl rfl

/-- C7, counterexample to the claim as stated: a 200 body that does have
`results[0].tables[0].rows = []` but also carries a truthy top-level `error`
field returns "Error: boom", not "No rows returned" — the error check
precedes the rows unwrap. -/
theorem rows_empty_with_error_field_not_no_rows :
    (execute_dax_query_tool ⟨some "w1", some "d1"⟩ "EVALUATE Orders"
       ⟨200, "", Json.obj
          [("error", Json.obj [("message", Json.str "boom")]),
           ("results", Json.arr [Json.obj
              [("tables", Json.arr [Json.obj [("rows", Json.arr [])]])]])]⟩).1 =
      .ok "Error: boom" ∧
    ("Error: boom" : String) ≠ "No rows returned" :=
  ⟨rfl, by decide⟩
